import Mathlib

/-!
Shallow embedding of `src/liteyuki/utils/data.py` (the `Database` SQLite ORM
adapter of LiteyukiBot) and proofs about the frozen claims.

Modelling conventions:
* Python runtime values are `Val`; SQLite storage cells are `Cell`.
* Python floats are represented by rationals (`Rat`); no float arithmetic is
  performed by the code under study, floats only travel through storage.
* SQLite storage is `DB`, a list of named tables; a table keeps its columns
  (name, declared storage type) in order and its rows as association lists
  aligned with the columns (mirroring `sqlite3.Row`).
* The connection `Conn` carries the current (cursor-visible) database, the
  last committed snapshot (`conn.commit` copies current over committed) and a
  log of the SQL statements the adapter emits through its debug logger
  (ALTER/INSERT/DELETE lines), which lets us speak about executed DDL and
  write order.
* Recursive operations (`upsert`/`_flat`, the loader, json encode/decode,
  pydantic-style instantiation) take an explicit fuel argument so that all
  definitions are structurally recursive and reduce definitionally; the fuel
  models the call stack, and every theorem holds for sufficient fuel.
* WHERE conditions are embedded as the tiny language `Cond` (`id = ?` with a
  bound parameter, or no condition); parameter comparison against the INTEGER
  id column follows SQLite's INTEGER affinity conversion.
-/

namespace Ly

/-- A SQLite storage cell. -/
inductive Cell where
  | cNull
  | cInt (n : Int)
  | cReal (q : Rat)
  | cText (s : String)
deriving DecidableEq, Repr

open Cell

/-- A Python runtime value as manipulated by the adapter: scalars, `None`,
lists, tuples (standing for the non-list/dict `BaseIterable` cases),
dicts with string keys, and pydantic `LiteModel` instances
(class name plus `__dict__` in field order). -/
inductive Val where
  | vNone
  | vBool (b : Bool)
  | vInt (n : Int)
  | vReal (q : Rat)
  | vStr (s : String)
  | vList (xs : List Val)
  | vTuple (xs : List Val)
  | vDict (kvs : List (String × Val))
  | vModel (cls : String) (fields : List (String × Val))

open Val

/-- A declared field annotation (PEP 585 style), as classified by
`auto_migrate`: scalars, a `LiteModel` subclass, bare `list`/`dict`,
parameterized `list[T]`/`dict[K, V]` (which are `types.GenericAlias`), and
any other generic alias. -/
inductive PyType where
  | pyInt
  | pyStr
  | pyFloat
  | pyBool
  | pyModel (cls : String)
  | pyList
  | pyDict
  | pyListOf (t : PyType)
  | pyDictOf (k v : PyType)
  | pyOtherGeneric (s : String)
deriving DecidableEq, Repr

open PyType

/-- A record definition: class name (= table name) and `__annotations__`
as an ordered association list. -/
structure ModelDef where
  name : String
  annotations : List (String × PyType)
deriving DecidableEq, Repr

/-! ### String helpers (self-contained so that everything reduces) -/

/-- `p` is a prefix of `s` (Python `str.startswith`). -/
def strStarts (s p : String) : Bool :=
  List.isPrefixOf p.toList s.toList

/-- One pass of Python `str.replace`: replace every (non-overlapping,
left-to-right) occurrence of `pat` by `rep`. -/
def replaceChars (pat rep : List Char) : Nat → List Char → List Char
  | 0, cs => cs
  | _ + 1, [] => []
  | fuel + 1, c :: cs =>
    if List.isPrefixOf pat (c :: cs) then
      rep ++ replaceChars pat rep fuel (List.drop pat.length (c :: cs))
    else
      c :: replaceChars pat rep fuel cs

/-- Python `s.replace(pat, rep)` for nonempty `pat`. -/
def strReplace (s pat rep : String) : String :=
  if pat.toList.isEmpty then s
  else String.mk (replaceChars pat.toList rep.toList (s.toList.length + 1) s.toList)

/-- Join strings with a separator. -/
def interc (sep : String) : List String → String
  | [] => ""
  | [x] => x
  | x :: rest => x ++ sep ++ interc sep rest

/-- Strict decimal-integer parse (optionally signed); models SQLite's
conversion of a clean numeric text to an INTEGER for affinity comparison. -/
def digitsToNat? : List Char → Option Nat → Option Nat
  | [], acc => acc
  | c :: cs, acc =>
    if c.isDigit then
      digitsToNat? cs (some ((acc.getD 0) * 10 + (c.toNat - '0'.toNat)))
    else none

def strToInt? (s : String) : Option Int :=
  match s.toList with
  | '-' :: rest => (digitsToNat? rest none).map (fun n => -(n : Int))
  | cs => (digitsToNat? cs none).map (fun n => (n : Int))

/-! ### JSON (`json.dumps` / `json.loads`, default separators) -/

/-- Escape a character for a JSON string literal the way `json.dumps` does
for the ASCII characters we model. -/
def escChar (c : Char) : String :=
  if c = '"' then "\\\""
  else if c = '\\' then "\\\\"
  else if c = '\n' then "\\n"
  else if c = '\t' then "\\t"
  else if c = '\r' then "\\r"
  else String.mk [c]

def escStr (s : String) : String :=
  String.join (s.toList.map escChar)

/-- Render a Python float the way `str`/`json.dumps` renders the exact
decimal floats that occur here (integral values as `n.0`); other rationals
are not produced by the modelled code. -/
def reprReal (q : Rat) : Except String String :=
  if q.den = 1 then .ok (toString q.num ++ ".0")
  else .error "unmodelled float literal"

mutual

/-- `json.dumps` with default separators. Errors on values `json.dumps`
rejects (model instances) and on floats we do not model. -/
def dumpsVal : Nat → Val → Except String String
  | 0, _ => .error "dumps: fuel exhausted"
  | _ + 1, vNone => .ok "null"
  | _ + 1, vBool b => .ok (if b then "true" else "false")
  | _ + 1, vInt n => .ok (toString n)
  | _ + 1, vReal q => reprReal q
  | _ + 1, vStr s => .ok ("\"" ++ escStr s ++ "\"")
  | fuel + 1, vList xs =>
    match dumpsItems fuel xs with
    | .error e => .error e
    | .ok items => .ok ("[" ++ interc ", " items ++ "]")
  | fuel + 1, vTuple xs =>
    match dumpsItems fuel xs with
    | .error e => .error e
    | .ok items => .ok ("[" ++ interc ", " items ++ "]")
  | fuel + 1, vDict kvs =>
    match dumpsPairs fuel kvs with
    | .error e => .error e
    | .ok items => .ok ("\x7b" ++ interc ", " items ++ "\x7d")
  | _ + 1, vModel _ _ => .error "TypeError: Object of type LiteModel is not JSON serializable"

/-- JSON array items, to be comma-space separated. -/
def dumpsItems : Nat → List Val → Except String (List String)
  | _, [] => .ok []
  | 0, _ :: _ => .error "dumps: fuel exhausted"
  | fuel + 1, x :: rest =>
    match dumpsVal fuel x with
    | .error e => .error e
    | .ok s =>
      match dumpsItems fuel rest with
      | .error e => .error e
      | .ok r => .ok (s :: r)

/-- JSON object entries, to be comma-space separated. -/
def dumpsPairs : Nat → List (String × Val) → Except String (List String)
  | _, [] => .ok []
  | 0, _ :: _ => .error "dumps: fuel exhausted"
  | fuel + 1, (k, v) :: rest =>
    match dumpsVal fuel v with
    | .error e => .error e
    | .ok s =>
      match dumpsPairs fuel rest with
      | .error e => .error e
      | .ok r => .ok (("\"" ++ escStr k ++ "\": " ++ s) :: r)

end

/-- Whitespace skipping for `json.loads`. -/
def skipWs : List Char → List Char
  | c :: cs => if c = ' ' || c = '\n' || c = '\t' || c = '\r' then skipWs cs else c :: cs
  | [] => []

/-- Parse a JSON string body after the opening quote; returns the decoded
characters plus the remaining input after the closing quote. -/
def parseStrBody : Nat → List Char → Except String (List Char × List Char)
  | 0, _ => .error "loads: fuel exhausted"
  | _ + 1, [] => .error "Unterminated string"
  | fuel + 1, c :: cs =>
    if c = '"' then .ok ([], cs)
    else if c = '\\' then
      match cs with
      | [] => .error "Unterminated string"
      | e :: cs' =>
        let dec : Except String Char :=
          if e = '"' then .ok '"'
          else if e = '\\' then .ok '\\'
          else if e = '/' then .ok '/'
          else if e = 'n' then .ok '\n'
          else if e = 't' then .ok '\t'
          else if e = 'r' then .ok '\r'
          else .error "Invalid escape"
        match dec with
        | .error msg => .error msg
        | .ok d =>
          match parseStrBody fuel cs' with
          | .error msg => .error msg
          | .ok (body, rest) => .ok (d :: body, rest)
    else
      match parseStrBody fuel cs with
      | .error msg => .error msg
      | .ok (body, rest) => .ok (c :: body, rest)

/-- Parse an unsigned decimal integer (at least one digit). -/
def parseDigits : List Char → Option Nat → Option Nat × List Char
  | c :: cs, acc =>
    if c.isDigit then parseDigits cs (some ((acc.getD 0) * 10 + (c.toNat - '0'.toNat)))
    else (acc, c :: cs)
  | [], acc => (acc, [])

mutual

/-- `json.loads` value parser (objects, arrays, strings, integers, literals;
floats are not produced by the modelled encoder). Returns the parsed value
and the remaining input. -/
def parseVal : Nat → List Char → Except String (Val × List Char)
  | 0, _ => .error "loads: fuel exhausted"
  | fuel + 1, input =>
    match skipWs input with
    | [] => .error "Expecting value"
    | c :: cs =>
      if c = '"' then
        match parseStrBody (fuel + 1) cs with
        | .error e => .error e
        | .ok (body, rest) => .ok (vStr (String.mk body), rest)
      else if c = '[' then
        match skipWs cs with
        | ']' :: rest => .ok (vList [], rest)
        | cs' =>
          match parseItems fuel cs' with
          | .error e => .error e
          | .ok (xs, rest) => .ok (vList xs, rest)
      else if c = '\x7b' then
        match skipWs cs with
        | '\x7d' :: rest => .ok (vDict [], rest)
        | cs' =>
          match parsePairs fuel cs' with
          | .error e => .error e
          | .ok (kvs, rest) => .ok (vDict kvs, rest)
      else if c = 't' then
        match cs with
        | 'r' :: 'u' :: 'e' :: rest => .ok (vBool true, rest)
        | _ => .error "Expecting value"
      else if c = 'f' then
        match cs with
        | 'a' :: 'l' :: 's' :: 'e' :: rest => .ok (vBool false, rest)
        | _ => .error "Expecting value"
      else if c = 'n' then
        match cs with
        | 'u' :: 'l' :: 'l' :: rest => .ok (vNone, rest)
        | _ => .error "Expecting value"
      else if c = '-' then
        match parseDigits cs none with
        | (some n, rest) => .ok (vInt (-(n : Int)), rest)
        | (none, _) => .error "Expecting value"
      else
        match parseDigits (c :: cs) none with
        | (some n, rest) => .ok (vInt (n : Int), rest)
        | (none, _) => .error "Expecting value"

/-- Array items after the opening bracket (nonempty case). -/
def parseItems : Nat → List Char → Except String (List Val × List Char)
  | 0, _ => .error "loads: fuel exhausted"
  | fuel + 1, input =>
    match parseVal fuel input with
    | .error e => .error e
    | .ok (x, rest) =>
      match skipWs rest with
      | ',' :: rest' =>
        match parseItems fuel rest' with
        | .error e => .error e
        | .ok (xs, rest'') => .ok (x :: xs, rest'')
      | ']' :: rest' => .ok ([x], rest')
      | _ => .error "Expecting delimiter"

/-- Object entries after the opening brace (nonempty case). -/
def parsePairs : Nat → List Char → Except String (List (String × Val) × List Char)
  | 0, _ => .error "loads: fuel exhausted"
  | fuel + 1, input =>
    match skipWs input with
    | '"' :: cs =>
      match parseStrBody (fuel + 1) cs with
      | .error e => .error e
      | .ok (key, rest) =>
        match skipWs rest with
        | ':' :: rest' =>
          match parseVal fuel rest' with
          | .error e => .error e
          | .ok (v, rest'') =>
            match skipWs rest'' with
            | ',' :: rest''' =>
              match parsePairs fuel rest''' with
              | .error e => .error e
              | .ok (kvs, r) => .ok ((String.mk key, v) :: kvs, r)
            | '\x7d' :: rest''' => .ok ([(String.mk key, v)], rest''')
            | _ => .error "Expecting delimiter"
        | _ => .error "Expecting colon"
    | _ => .error "Expecting property name"

end

/-- `json.loads`: parse a complete JSON document. -/
def loads (s : String) : Except String Val :=
  match parseVal (s.toList.length + 2) s.toList with
  | .error e => .error e
  | .ok (v, rest) =>
    match skipWs rest with
    | [] => .ok v
    | _ => .error "Extra data"

/-! ### SQLite storage model -/

/-- A fetched row (`sqlite3.Row`): cells keyed by column name, in column
order. -/
abbrev Row := List (String × Cell)

/-- A table: columns (name, declared storage type) in order, and rows. -/
structure Table where
  cols : List (String × String)
  rows : List Row
deriving DecidableEq, Repr

/-- The database: named tables in creation order. -/
abbrev DB := List (String × Table)

/-- The live connection: cursor-visible state, last committed snapshot, and
the statements the adapter logs (ALTER / INSERT / DELETE lines). -/
structure Conn where
  cur : DB
  committed : DB
  log : List String
deriving DecidableEq, Repr

/-- Result of an adapter call: encodes both the returned value and the
connection state, or a raised exception together with the connection state
at the moment of the raise. -/
inductive MRes (α : Type) where
  | ok (a : α) (c : Conn)
  | err (msg : String) (c : Conn)

/-- First-occurrence association lookup. -/
def alookup {α : Type} (k : String) : List (String × α) → Option α
  | [] => none
  | (k', v) :: rest => if k' = k then some v else alookup k rest

/-- Remove the first entry with the given key. -/
def eraseKey {α : Type} (k : String) : List (String × α) → List (String × α)
  | [] => []
  | (k', v) :: rest => if k' = k then rest else (k', v) :: eraseKey k rest

/-- Column names of a table, in order (`PRAGMA table_info`). -/
def colNames (t : Table) : List String := t.cols.map Prod.fst

/-- `SELECT * FROM sqlite_master WHERE type = "table" AND name = ?`. -/
def lookupTable (db : DB) (name : String) : Option Table := alookup name db

/-- Replace the first table with the given name. -/
def updateTable (name : String) (t : Table) : DB → DB
  | [] => []
  | (n, tb) :: rest =>
    if n = name then (name, t) :: rest else (n, tb) :: updateTable name t rest

/-- `conn.commit()`. -/
def commitConn (c : Conn) : Conn := { c with committed := c.cur }

/-- Append a logged statement (`nonebot.logger.debug` of an executed SQL
line). -/
def logStmt (c : Conn) (s : String) : Conn := { c with log := c.log ++ [s] }

/-- SQLite comparison of a stored id cell against a bound parameter under the
INTEGER affinity of the id columns used by the modelled tables: a text
parameter that is a clean integer literal is converted before comparing. -/
def idMatches (stored param : Cell) : Bool :=
  match stored, param with
  | cInt n, cInt m => n = m
  | cInt n, cText s => strToInt? s = some n
  | cText a, cText b => a = b
  | cText a, cInt m => strToInt? a = some m
  | cReal a, cReal b => a = b
  | _, _ => false

/-- The WHERE fragments exercised by the adapter's callers: no condition, or
`id = ?` with one bound parameter. -/
inductive Cond where
  | always
  | idEq (p : Cell)
deriving DecidableEq, Repr

def evalCond (cond : Cond) (r : Row) : Bool :=
  match cond with
  | .always => true
  | .idEq p =>
    match alookup "id" r with
    | some cell => idMatches cell p
    | none => false

/-- `fetchone` of `SELECT * FROM t WHERE cond`. -/
def fetchFirst (cond : Cond) : List Row → Option Row
  | [] => none
  | r :: rest => if evalCond cond r then some r else fetchFirst cond rest

/-- `fetchall` of `SELECT * FROM t WHERE cond`. -/
def fetchMatching (cond : Cond) (rows : List Row) : List Row :=
  rows.filter (fun r => evalCond cond r)

/-- Largest INTEGER id present in the table (0 when none), used for
auto-assignment of the next rowid. -/
def maxId (rows : List Row) : Int :=
  rows.foldl
    (fun m r =>
      match alookup "id" r with
      | some (cInt k) => max m k
      | _ => m)
    0

/-- `INSERT OR REPLACE INTO t (keys...) VALUES (?...)` on a table whose id
column has INTEGER affinity. Unnamed columns receive NULL; a NULL id is
auto-assigned the next rowid; a conflicting id replaces the existing row.
Returns the updated table and `cursor.lastrowid`. -/
def insertOrReplace (t : Table) (kvs : List (String × Cell)) :
    Except String (Table × Int) :=
  match kvs.find? (fun kv => decide (kv.1 ∉ colNames t)) with
  | some kv => .error ("table has no column named " ++ kv.1)
  | none =>
    let idv := (alookup "id" kvs).getD cNull
    match
      (match idv with
       | cNull => Except.ok (maxId t.rows + 1)
       | cInt m => Except.ok m
       | _ => Except.error "datatype mismatch") with
    | .error e => .error e
    | .ok n =>
      let newRow : Row :=
        t.cols.map (fun col =>
          (col.1, if col.1 = "id" then cInt n else (alookup col.1 kvs).getD cNull))
      let conflict := t.rows.any (fun r => alookup "id" r = some (cInt n))
      let rows' :=
        if conflict then
          t.rows.map (fun r => if alookup "id" r = some (cInt n) then newRow else r)
        else t.rows ++ [newRow]
      .ok ({ t with rows := rows' }, n)

/-! ### Schema migrator (`auto_migrate`, data.py lines 110-172) -/

/-- `Database.type_map` with its `.get(_, 'TEXT')` default. -/
def type_map (ty : PyType) : String :=
  match ty with
  | pyStr => "TEXT"
  | pyInt => "INTEGER"
  | pyFloat => "REAL"
  | pyBool => "INTEGER"
  | pyList => "TEXT"
  | _ => "TEXT"

/-- `Database.DEFAULT_VALUE` with its `.get(_, "")` default. -/
def DEFAULT_VALUE (storage : String) : Cell :=
  if storage = "TEXT" then cText ""
  else if storage = "INTEGER" then cInt 0
  else if storage = "REAL" then cReal 0
  else cText ""

/-- `isinstance(r_type, type(LiteModel))`: the annotation is itself a model
class. -/
def isModelTy : PyType → Bool
  | pyModel _ => true
  | _ => false

/-- `r_type in [list[str], list[int], list[float], list[bool], list]`. -/
def isListedListTy : PyType → Bool
  | pyList => true
  | pyListOf pyStr => true
  | pyListOf pyInt => true
  | pyListOf pyFloat => true
  | pyListOf pyBool => true
  | _ => false

/-- `r_type in [dict[str, str], dict[str, int], dict[str, float],
dict[str, bool], dict]`. -/
def isListedDictTy : PyType → Bool
  | pyDict => true
  | pyDictOf pyStr pyStr => true
  | pyDictOf pyStr pyInt => true
  | pyDictOf pyStr pyFloat => true
  | pyDictOf pyStr pyBool => true
  | _ => false

/-- `isinstance(r_type, types.GenericAlias)`: any parameterized builtin
generic (bare `list`/`dict` are classes, not aliases). -/
def isGenericAlias : PyType → Bool
  | pyListOf _ => true
  | pyDictOf _ _ => true
  | pyOtherGeneric _ => true
  | _ => false

/-- The column (name, storage type) `auto_migrate` derives for a declared
field (data.py lines 140-155). -/
def migCol (field : String) (ty : PyType) : String × String :=
  if isModelTy ty then ("FOREIGNID" ++ field, "TEXT")
  else if isListedListTy ty then ("LIST" ++ field, "TEXT")
  else if isListedDictTy ty then ("DICT" ++ field, "TEXT")
  else if isGenericAlias ty then ("JSON" ++ field, "TEXT")
  else (field, type_map ty)

/-- `ALTER TABLE t ADD COLUMN c ty`: errors on a duplicate column name; the
new cell of every existing row is NULL. -/
def addColumn (t : Table) (c ty : String) : Except String Table :=
  if c ∈ colNames t then .error ("duplicate column name: " ++ c)
  else .ok { cols := t.cols ++ [(c, ty)], rows := t.rows.map (fun r => r ++ [(c, cNull)]) }

/-- The cell update of `UPDATE t SET c = d WHERE c IS NULL`. -/
def setNullCell (c : String) (d : Cell) (kv : String × Cell) : String × Cell :=
  if kv.1 = c && kv.2 = cNull then (kv.1, d) else kv

/-- `UPDATE t SET c = d WHERE c IS NULL`. -/
def fillNulls (t : Table) (c : String) (d : Cell) : Table :=
  { t with rows := t.rows.map (fun r => r.map (setNullCell c d)) }

/-- The body `auto_migrate` runs for one absent column (data.py lines
160-163): add the column, then backfill existing rows' NULLs with the
storage type's default. -/
def addColumnWithBackfill (t : Table) (c ty : String) : Except String Table :=
  match addColumn t c ty with
  | .error e => .error e
  | .ok t1 => .ok (fillNulls t1 c (DEFAULT_VALUE ty))

/-- `ALTER TABLE t DROP COLUMN c`. -/
def dropColumn (t : Table) (c : String) : Except String Table :=
  if c ∈ colNames t then
    .ok { cols := eraseKey c t.cols, rows := t.rows.map (eraseKey c) }
  else .error ("no such column: " ++ c)

/-- Loop of data.py lines 158-163: for each expected column absent from the
snapshot `tf` of the table's fields, add it (with backfill) and log the ALTER
statement. -/
def addLoop (tname : String) (tf : List String) :
    Table → List String → List (String × String) → Except String (Table × List String)
  | t, log, [] => .ok (t, log)
  | t, log, (c, ty) :: rest =>
    if c ∈ tf then addLoop tname tf t log rest
    else
      match addColumnWithBackfill t c ty with
      | .error e => .error e
      | .ok t1 =>
        addLoop tname tf t1
          (log ++ ["ALTER TABLE " ++ tname ++ " ADD COLUMN " ++ c ++ " " ++ ty]) rest

/-- Loop of data.py lines 166-169: drop every snapshot field that is neither
expected nor `id`, logging the ALTER statement. -/
def dropLoop (tname : String) (modelFields : List String) :
    Table → List String → List String → Except String (Table × List String)
  | t, log, [] => .ok (t, log)
  | t, log, f :: rest =>
    if f ∉ modelFields ∧ f ≠ "id" then
      match dropColumn t f with
      | .error e => .error e
      | .ok t1 =>
        dropLoop tname modelFields t1
          (log ++ ["ALTER TABLE " ++ tname ++ " DROP COLUMN " ++ f]) rest
    else dropLoop tname modelFields t log rest

/-- The id column `CREATE TABLE IF NOT EXISTS` declares: the annotated id's
mapped type when an id annotation exists, else INTEGER AUTOINCREMENT (both
behave as the rowid alias here). -/
def createIdCol (d : ModelDef) : String × String :=
  match alookup "id" d.annotations with
  | some ty => ("id", type_map ty)
  | none => ("id", "INTEGER")

/-- The column reconciliation `auto_migrate` performs on one existing table
(data.py lines 131-169): snapshot the fields, derive the expected columns,
add the missing ones with backfill, then drop the surplus ones. Returns the
reconciled table and the logged ALTER statements. -/
def migrateTable (tname : String) (anns : List (String × PyType)) (t : Table) :
    Except String (Table × List String) :=
  if anns.isEmpty then
    -- zip(*model.__annotations__.items()) raises on an empty annotation dict
    .error "ValueError: not enough values to unpack"
  else
    match addLoop tname (colNames t) t [] (anns.map (fun fv => migCol fv.1 fv.2)) with
    | .error e => .error e
    | .ok (t1, log1) =>
      match dropLoop tname ((anns.map (fun fv => migCol fv.1 fv.2)).map Prod.fst)
          t1 [] (colNames t) with
      | .error e => .error e
      | .ok (t2, log2) => .ok (t2, log1 ++ log2)

/-- Reconcile a model's table inside the given (post-creation) database and
write the result back into the connection. -/
def migrateInDB (c : Conn) (d : ModelDef) (db1 : DB) : Except String Conn :=
  match lookupTable db1 d.name with
  | none => .error "unreachable: table was just created"
  | some t =>
    match migrateTable d.name d.annotations t with
    | .error e => .error e
    | .ok (t2, log12) =>
      .ok { c with cur := updateTable d.name t2 db1, log := c.log ++ log12 }

/-- One iteration of `auto_migrate`'s model loop (data.py lines 120-169):
create the table if absent, then reconcile its columns. Error states do not
model partial cursor mutation (no claim depends on the post-error connection
of a failed migration). -/
def migrateOne (c : Conn) (d : ModelDef) : Except String Conn :=
  match lookupTable c.cur d.name with
  | some _ => migrateInDB c d c.cur
  | none => migrateInDB c d (c.cur ++ [(d.name, { cols := [createIdCol d], rows := [] })])

/-- `auto_migrate(*models)`: migrate each definition, then commit once.
A raised error propagates without committing. -/
def auto_migrate (c : Conn) (ds : List ModelDef) : MRes Unit :=
  match ds with
  | [] => .ok () (commitConn c)
  | d :: rest =>
    match migrateOne c d with
    | .error e => .err e c
    | .ok c1 => auto_migrate c1 rest

/-! ### Flattener and `upsert` (data.py lines 174-255) -/

/-- The scalar a Python value is bound as by the sqlite3 driver. -/
def cellOfScalar : Val → Except String Cell
  | vNone => .ok cNull
  | vBool b => .ok (cInt (if b then 1 else 0))
  | vInt n => .ok (cInt n)
  | vReal q => .ok (cReal q)
  | vStr s => .ok (cText s)
  | _ => .error "InterfaceError: unsupported bind parameter"

/-- The logged text of the parameterized `INSERT OR REPLACE` statement
(data.py line 209). -/
def insertStmt (tname : String) (keys : List String) : String :=
  "INSERT OR REPLACE INTO " ++ tname ++ " (" ++ interc "," keys ++ ") VALUES (" ++
    interc "," (keys.map (fun _ => "?")) ++ ")"

mutual

/-- The loop body of `upsert` over the supplied models (data.py lines
185-212): per model, require the table, flatten `model.__dict__`, log and
execute the insert, collect `cursor.lastrowid`. No commit here — `upsert`
commits once after the loop. -/
def upsertLoop : Nat → Conn → List Val → List Int → MRes (List Int)
  | 0, c, _, _ => .err "RecursionError: fuel exhausted" c
  | _ + 1, c, [], acc => .ok acc c
  | fuel + 1, c, m :: rest, acc =>
    match m with
    | vModel cls fields =>
      match upsertModel fuel c cls fields with
      | .err e c1 => .err e c1
      | .ok i c1 => upsertLoop fuel c1 rest (acc ++ [i])
    | _ => .err "AttributeError: argument is not a LiteModel" c

/-- Process one model: table-existence check, flattening of the fields, then
`INSERT OR REPLACE` (data.py lines 186-212). -/
def upsertModel : Nat → Conn → String → List (String × Val) → MRes Int
  | 0, c, _, _ => .err "RecursionError: fuel exhausted" c
  | fuel + 1, c, cls, fields =>
    match lookupTable c.cur cls with
    | none => .err ("表" ++ cls ++ "不存在，请先迁移") c
    | some _ =>
      match flatFields fuel c fields with
      | .err e c1 => .err e c1
      | .ok kvs c1 =>
        let c2 := logStmt c1 (insertStmt cls (kvs.map Prod.fst))
        -- re-read the table: nested upserts may have altered the database
        match lookupTable c2.cur cls with
        | none => .err ("表" ++ cls ++ "不存在，请先迁移") c2
        | some t =>
          match insertOrReplace t kvs with
          | .error e => .err e c2
          | .ok (t', i) => .ok i { c2 with cur := updateTable cls t' c2.cur }

/-- Field dispatch of data.py lines 192-207, producing the key/value lists:
nested models are upserted through a full recursive `upsert` call (loop then
commit) and replaced by their `$ID:<cls>:<id>` token; lists, dicts and other
iterables are flattened to JSON text under their prefixed keys; scalars pass
through. -/
def flatFields : Nat → Conn → List (String × Val) → MRes (List (String × Cell))
  | 0, c, _ => .err "RecursionError: fuel exhausted" c
  | _ + 1, c, [] => .ok [] c
  | fuel + 1, c, (f, v) :: rest =>
    match v with
    | vModel cls cf =>
      -- `self.upsert(value)`: a complete upsert call, including its commit
      match upsertLoop fuel c [vModel cls cf] [] with
      | .err e c1 => .err e c1
      | .ok ids c1 =>
        let c2 := commitConn c1
        let tok := "$ID:" ++ cls ++ ":" ++ toString (ids.headD 0)
        match flatFields fuel c2 rest with
        | .err e c3 => .err e c3
        | .ok kvs c3 => .ok (("FOREIGNID" ++ f, cText tok) :: kvs) c3
    | vList xs =>
      match flatData fuel c (vList xs) with
      | .err e c1 => .err e c1
      | .ok s c1 =>
        match flatFields fuel c1 rest with
        | .err e c2 => .err e c2
        | .ok kvs c2 => .ok (("LIST" ++ f, cText s) :: kvs) c2
    | vDict kvs0 =>
      match flatData fuel c (vDict kvs0) with
      | .err e c1 => .err e c1
      | .ok s c1 =>
        match flatFields fuel c1 rest with
        | .err e c2 => .err e c2
        | .ok kvs c2 => .ok (("DICT" ++ f, cText s) :: kvs) c2
    | vTuple xs =>
      match flatData fuel c (vTuple xs) with
      | .err e c1 => .err e c1
      | .ok s c1 =>
        match flatFields fuel c1 rest with
        | .err e c2 => .err e c2
        | .ok kvs c2 => .ok (("JSON" ++ f, cText s) :: kvs) c2
    | scalar =>
      match cellOfScalar scalar with
      | .error e => .err e c
      | .ok cell =>
        match flatFields fuel c rest with
        | .err e c1 => .err e c1
        | .ok kvs c1 => .ok ((f, cell) :: kvs) c1

/-- `_flat` (data.py lines 216-255): flatten an iterable to its JSON text.
Non-iterables raise. -/
def flatData : Nat → Conn → Val → MRes String
  | 0, c, _ => .err "RecursionError: fuel exhausted" c
  | fuel + 1, c, vDict kvs =>
    match flatDictLoop fuel c kvs with
    | .err e c1 => .err e c1
    | .ok pairs c1 =>
      match dumpsVal (fuel + 1) (vDict pairs) with
      | .error e => .err e c1
      | .ok s => .ok s c1
  | fuel + 1, c, vList xs =>
    match flatListLoop fuel c xs with
    | .err e c1 => .err e c1
    | .ok elems c1 =>
      match dumpsVal (fuel + 1) (vList elems) with
      | .error e => .err e c1
      | .ok s => .ok s c1
  | fuel + 1, c, vTuple xs =>
    match flatListLoop fuel c xs with
    | .err e c1 => .err e c1
    | .ok elems c1 =>
      match dumpsVal (fuel + 1) (vList elems) with
      | .error e => .err e c1
      | .ok s => .ok s c1
  | _ + 1, c, _ => .err "数据类型错误" c

/-- `_flat`'s list/tuple/set branch (data.py lines 239-251): models become
reference tokens via a full nested upsert, nested iterables become their
JSON text (a string element), scalars pass through. -/
def flatListLoop : Nat → Conn → List Val → MRes (List Val)
  | 0, c, _ => .err "RecursionError: fuel exhausted" c
  | _ + 1, c, [] => .ok [] c
  | fuel + 1, c, v :: rest =>
    match v with
    | vModel cls cf =>
      match upsertLoop fuel c [vModel cls cf] [] with
      | .err e c1 => .err e c1
      | .ok ids c1 =>
        let c2 := commitConn c1
        let tok := "$ID:" ++ cls ++ ":" ++ toString (ids.headD 0)
        match flatListLoop fuel c2 rest with
        | .err e c3 => .err e c3
        | .ok elems c3 => .ok (vStr tok :: elems) c3
    | vList xs =>
      match flatData fuel c (vList xs) with
      | .err e c1 => .err e c1
      | .ok s c1 =>
        match flatListLoop fuel c1 rest with
        | .err e c2 => .err e c2
        | .ok elems c2 => .ok (vStr s :: elems) c2
    | vDict kvs =>
      match flatData fuel c (vDict kvs) with
      | .err e c1 => .err e c1
      | .ok s c1 =>
        match flatListLoop fuel c1 rest with
        | .err e c2 => .err e c2
        | .ok elems c2 => .ok (vStr s :: elems) c2
    | vTuple xs =>
      match flatData fuel c (vTuple xs) with
      | .err e c1 => .err e c1
      | .ok s c1 =>
        match flatListLoop fuel c1 rest with
        | .err e c2 => .err e c2
        | .ok elems c2 => .ok (vStr s :: elems) c2
    | scalar =>
      match flatListLoop fuel c rest with
      | .err e c1 => .err e c1
      | .ok elems c1 => .ok (scalar :: elems) c1

/-- `_flat`'s dict branch (data.py lines 225-237): values are processed like
fields, under keys carrying the same prefixes. -/
def flatDictLoop : Nat → Conn → List (String × Val) → MRes (List (String × Val))
  | 0, c, _ => .err "RecursionError: fuel exhausted" c
  | _ + 1, c, [] => .ok [] c
  | fuel + 1, c, (k, v) :: rest =>
    match v with
    | vModel cls cf =>
      match upsertLoop fuel c [vModel cls cf] [] with
      | .err e c1 => .err e c1
      | .ok ids c1 =>
        let c2 := commitConn c1
        let tok := "$ID:" ++ cls ++ ":" ++ toString (ids.headD 0)
        match flatDictLoop fuel c2 rest with
        | .err e c3 => .err e c3
        | .ok pairs c3 => .ok (("FOREIGNID" ++ k, vStr tok) :: pairs) c3
    | vList xs =>
      match flatData fuel c (vList xs) with
      | .err e c1 => .err e c1
      | .ok s c1 =>
        match flatDictLoop fuel c1 rest with
        | .err e c2 => .err e c2
        | .ok pairs c2 => .ok (("LIST" ++ k, vStr s) :: pairs) c2
    | vDict kvs =>
      match flatData fuel c (vDict kvs) with
      | .err e c1 => .err e c1
      | .ok s c1 =>
        match flatDictLoop fuel c1 rest with
        | .err e c2 => .err e c2
        | .ok pairs c2 => .ok (("DICT" ++ k, vStr s) :: pairs) c2
    | vTuple xs =>
      match flatData fuel c (vTuple xs) with
      | .err e c1 => .err e c1
      | .ok s c1 =>
        match flatDictLoop fuel c1 rest with
        | .err e c2 => .err e c2
        | .ok pairs c2 => .ok (("JSON" ++ k, vStr s) :: pairs) c2
    | scalar =>
      match flatDictLoop fuel c rest with
      | .err e c1 => .err e c1
      | .ok pairs c1 => .ok ((k, scalar) :: pairs) c1

end

/-- `upsert(*models)`: the model loop followed by one commit; the id list
mirrors the returned id (or tuple of ids). A raised error propagates before
the call's own commit. -/
def upsert (fuel : Nat) (c : Conn) (ms : List Val) : MRes (List Int) :=
  match upsertLoop fuel c ms [] with
  | .err e c1 => .err e c1
  | .ok ids c1 => .ok ids (commitConn c1)

/-! ### Loader (`convert_to_dict` / `load`, data.py lines 334-374) -/

/-- The Python value a fetched cell appears as. -/
def cellToVal : Cell → Val
  | cNull => vNone
  | cInt n => vInt n
  | cReal q => vReal q
  | cText s => vStr s

/-- `dict(row_data)` of a fetched row. -/
def rowToDict (r : Row) : List (String × Val) :=
  r.map (fun kv => (kv.1, cellToVal kv.2))

/-- `v.split(":", 2)` applied to a reference token: the text before the first
colon, between the first and second, and everything after the second.
`none` models the IndexError on malformed tokens. -/
def tokenParts (s : String) : Option (String × String × String) :=
  match s.toList.splitOn ':' with
  | a :: b :: rest =>
    match rest with
    | [] => none
    | _ => some (String.mk a, String.mk b, interc ":" (rest.map String.mk))
  | _ => none

/-- Resolve a reference token: `SELECT * FROM <cls> WHERE id = ?` with the
token's identity text, then `dict(...fetchone())`. Errors model the
OperationalError on a missing table and the TypeError of `dict(None)`. -/
def fetchRefRow (db : DB) (cls idText : String) : Except String (List (String × Val)) :=
  match lookupTable db cls with
  | none => .error ("no such table: " ++ cls)
  | some t =>
    match fetchFirst (.idEq (cText idText)) t.rows with
    | none => .error "TypeError: cannot convert NoneType to dict"
    | some r => .ok (rowToDict r)

mutual

/-- `load` (data.py lines 343-372): recursively strip prefixes and resolve
references. The fuel bounds the recursion depth (the source recursion is
unbounded and cycles forever on reference cycles). -/
def load : Nat → DB → Val → Except String Val
  | 0, _, _ => .error "RecursionError: maximum recursion depth exceeded"
  | fuel + 1, db, v =>
    match v with
    | vDict kvs =>
      match loadDictLoop fuel db kvs with
      | .error e => .error e
      | .ok kvs' => .ok (vDict kvs')
    | vList xs =>
      match loadListLoop fuel db xs with
      | .error e => .error e
      | .ok xs' => .ok (vList xs')
    | vTuple xs =>
      match loadListLoop fuel db xs with
      | .error e => .error e
      | .ok xs' => .ok (vList xs')
    | other => .ok other

/-- The dict branch of `load` (lines 345-362): dispatches on the key's
prefix; `''` stands for the empty collection; unprefixed entries are copied
verbatim. -/
def loadDictLoop : Nat → DB → List (String × Val) → Except String (List (String × Val))
  | 0, _, _ => .error "RecursionError: maximum recursion depth exceeded"
  | _ + 1, _, [] => .ok []
  | fuel + 1, db, (k, v) :: rest =>
    if strStarts k "FOREIGNID" then
      match v with
      | vStr s =>
        match tokenParts s with
        | none => .error "IndexError: list index out of range"
        | some (_, cls, idText) =>
          match fetchRefRow db cls idText with
          | .error e => .error e
          | .ok rowd =>
            match load fuel db (vDict rowd) with
            | .error e => .error e
            | .ok child =>
              match loadDictLoop fuel db rest with
              | .error e => .error e
              | .ok rest' => .ok ((strReplace k "FOREIGNID" "", child) :: rest')
      | _ => .error "AttributeError: value has no attribute split"
    else if strStarts k "LIST" then
      match v with
      | vStr s =>
        let s := if s = "" then "[]" else s
        match loads s with
        | .error e => .error e
        | .ok j =>
          match load fuel db j with
          | .error e => .error e
          | .ok lv =>
            match loadDictLoop fuel db rest with
            | .error e => .error e
            | .ok rest' => .ok ((strReplace k "LIST" "", lv) :: rest')
      | _ => .error "TypeError: the JSON object must be str"
    else if strStarts k "DICT" then
      match v with
      | vStr s =>
        let s := if s = "" then "\x7b\x7d" else s
        match loads s with
        | .error e => .error e
        | .ok j =>
          match load fuel db j with
          | .error e => .error e
          | .ok lv =>
            match loadDictLoop fuel db rest with
            | .error e => .error e
            | .ok rest' => .ok ((strReplace k "DICT" "", lv) :: rest')
      | _ => .error "TypeError: the JSON object must be str"
    else if strStarts k "JSON" then
      match v with
      | vStr s =>
        let s := if s = "" then "[]" else s
        match loads s with
        | .error e => .error e
        | .ok j =>
          match load fuel db j with
          | .error e => .error e
          | .ok lv =>
            match loadDictLoop fuel db rest with
            | .error e => .error e
            | .ok rest' => .ok ((strReplace k "JSON" "", lv) :: rest')
      | _ => .error "TypeError: the JSON object must be str"
    else
      match loadDictLoop fuel db rest with
      | .error e => .error e
      | .ok rest' => .ok ((k, v) :: rest')

/-- The list branch of `load` (lines 363-369): keeps only `$ID`-prefixed
strings (resolved) and nested iterables (loaded). Mirroring the source, there
is no `else` — scalar elements are dropped. -/
def loadListLoop : Nat → DB → List Val → Except String (List Val)
  | 0, _, _ => .error "RecursionError: maximum recursion depth exceeded"
  | _ + 1, _, [] => .ok []
  | fuel + 1, db, v :: rest =>
    match v with
    | vStr s =>
      if strStarts s "$ID" then
        match tokenParts s with
        | none => .error "IndexError: list index out of range"
        | some (_, cls, idText) =>
          match fetchRefRow db cls idText with
          | .error e => .error e
          | .ok rowd =>
            match load fuel db (vDict rowd) with
            | .error e => .error e
            | .ok child =>
              match loadListLoop fuel db rest with
              | .error e => .error e
              | .ok rest' => .ok (child :: rest')
      else
        -- a plain string is neither an $ID token nor a BaseIterable: dropped
        loadListLoop fuel db rest
    | vList xs =>
      match load fuel db (vList xs) with
      | .error e => .error e
      | .ok lv =>
        match loadListLoop fuel db rest with
        | .error e => .error e
        | .ok rest' => .ok (lv :: rest')
    | vDict kvs =>
      match load fuel db (vDict kvs) with
      | .error e => .error e
      | .ok lv =>
        match loadListLoop fuel db rest with
        | .error e => .error e
        | .ok rest' => .ok (lv :: rest')
    | vTuple xs =>
      match load fuel db (vTuple xs) with
      | .error e => .error e
      | .ok lv =>
        match loadListLoop fuel db rest with
        | .error e => .error e
        | .ok rest' => .ok (lv :: rest')
    | _ =>
      -- missing else branch in the source: non-token scalars are dropped
      loadListLoop fuel db rest

end

/-- `convert_to_dict(data)`. -/
def convert_to_dict (fuel : Nat) (db : DB) (d : List (String × Val)) :
    Except String Val :=
  load fuel db (vDict d)

/-! ### Pydantic-style instantiation (`model(**data)`)

Pydantic validation is modelled leniently: declared fields are read from the
keyword dict in declaration order, a dict supplied for a nested-model field
is built into that model, `id` defaults to `None` (from `LiteModel`), other
missing fields raise, extra keys are ignored, and scalar coercion is the
identity. -/

mutual

def instantiateModel : Nat → List ModelDef → String → List (String × Val) → Except String Val
  | 0, _, _, _ => .error "RecursionError: maximum recursion depth exceeded"
  | fuel + 1, defs, cls, d =>
    match defs.find? (fun md => md.name = cls) with
    | none => .error ("NameError: undefined model " ++ cls)
    | some md =>
      match instFields fuel defs md.annotations d with
      | .error e => .error e
      | .ok fields => .ok (vModel cls fields)

def instFields : Nat → List ModelDef → List (String × PyType) → List (String × Val) →
    Except String (List (String × Val))
  | 0, _, _, _ => .error "RecursionError: maximum recursion depth exceeded"
  | _ + 1, _, [], _ => .ok []
  | fuel + 1, defs, (f, ty) :: anns, d =>
    match alookup f d with
    | some v =>
      match coerceField fuel defs ty v with
      | .error e => .error e
      | .ok v' =>
        match instFields fuel defs anns d with
        | .error e => .error e
        | .ok rest => .ok ((f, v') :: rest)
    | none =>
      if f = "id" then
        match instFields fuel defs anns d with
        | .error e => .error e
        | .ok rest => .ok ((f, vNone) :: rest)
      else .error ("ValidationError: field required: " ++ f)

def coerceField : Nat → List ModelDef → PyType → Val → Except String Val
  | 0, _, _, _ => .error "RecursionError: maximum recursion depth exceeded"
  | fuel + 1, defs, pyModel cls, vDict kvs => instantiateModel fuel defs cls kvs
  | _ + 1, _, _, v => .ok v

end

/-! ### Record access API (`first` / `all` / `delete`, data.py lines 268-332) -/

/-- `first(model, conditions, *args, default=...)`. -/
def first (fuel : Nat) (defs : List ModelDef) (c : Conn) (cls : String)
    (cond : Cond) (default : Val) : Except String Val :=
  match lookupTable c.cur cls with
  | none => .ok default
  | some t =>
    match fetchFirst cond t.rows with
    | none => .ok default
    | some r =>
      match convert_to_dict fuel c.cur (rowToDict r) with
      | .error e => .error e
      | .ok loaded =>
        match loaded with
        | vDict kvs => instantiateModel fuel defs cls kvs
        | _ => .error "TypeError: keyword arguments must be a mapping"

/-- Materialize each fetched row (`[model(**self.convert_to_dict(d)) ...]`). -/
def allRowsLoop (fuel : Nat) (defs : List ModelDef) (db : DB) (cls : String) :
    List Row → Except String (List Val)
  | [] => .ok []
  | r :: rest =>
    match convert_to_dict fuel db (rowToDict r) with
    | .error e => .error e
    | .ok loaded =>
      match loaded with
      | vDict kvs =>
        match instantiateModel fuel defs cls kvs with
        | .error e => .error e
        | .ok m =>
          match allRowsLoop fuel defs db cls rest with
          | .error e => .error e
          | .ok ms => .ok (m :: ms)
      | _ => .error "TypeError: keyword arguments must be a mapping"

/-- `all(model, conditions=None, *args, default=...)`. -/
def allRecords (fuel : Nat) (defs : List ModelDef) (c : Conn) (cls : String)
    (cond : Cond) (default : Val) : Except String Val :=
  match lookupTable c.cur cls with
  | none => .ok default
  | some t =>
    match fetchMatching cond t.rows with
    | [] => .ok default
    | r :: rest =>
      match allRowsLoop fuel defs c.cur cls (r :: rest) with
      | .error e => .error e
      | .ok ms => .ok (vList ms)

/-- `delete(model, conditions, *args)`: silently returns on a missing table;
otherwise logs, deletes the matching rows and commits. -/
def deleteRecords (c : Conn) (cls : String) (cond : Cond) : Conn :=
  match lookupTable c.cur cls with
  | none => c
  | some t =>
    let c1 := logStmt c ("DELETE FROM " ++ cls ++ " WHERE ?")
    let t' := { t with rows := t.rows.filter (fun r => !evalCond cond r) }
    commitConn { c1 with cur := updateTable cls t' c1.cur }

/-- The cell stored in the first row of a table, by column name (observer
used to state claims about stored values). -/
def storedCell (db : DB) (tname col : String) : Option Cell :=
  (lookupTable db tname).bind (fun t => t.rows.head?.bind (fun r => alookup col r))

/-! ### Concrete scenarios used by the claims -/

/-- A fresh connection over an empty database file. -/
def emptyConn : Conn := { cur := [], committed := [], log := [] }

/-- The spec's end-to-end example model
`User` with fields `id: int`, `name: str`, `tags: list[str]`. -/
def UserDef : ModelDef :=
  { name := "User", annotations := [("id", pyInt), ("name", pyStr), ("tags", pyListOf pyStr)] }

/-- `User(name="a", tags=["x", "y"])` (id left at its `None` default). -/
def userAlice : Val :=
  vModel "User" [("id", vNone), ("name", vStr "a"), ("tags", vList [vStr "x", vStr "y"])]

/-- The connection after migrating `User` on a fresh database. -/
def userConnM : Conn :=
  { cur := [("User", { cols := [("id", "INTEGER"), ("name", "TEXT"), ("LISTtags", "TEXT")],
                       rows := [] })],
    committed := [("User", { cols := [("id", "INTEGER"), ("name", "TEXT"), ("LISTtags", "TEXT")],
                             rows := [] })],
    log := ["ALTER TABLE User ADD COLUMN name TEXT", "ALTER TABLE User ADD COLUMN LISTtags TEXT"] }

/-- The connection after then upserting `userAlice`: the row stores the JSON
text of the tags list. -/
def userConnU : Conn :=
  { cur := [("User", { cols := [("id", "INTEGER"), ("name", "TEXT"), ("LISTtags", "TEXT")],
                       rows := [[("id", cInt 1), ("name", cText "a"),
                                 ("LISTtags", cText "[\"x\", \"y\"]")]] })],
    committed := [("User", { cols := [("id", "INTEGER"), ("name", "TEXT"), ("LISTtags", "TEXT")],
                             rows := [[("id", cInt 1), ("name", cText "a"),
                                       ("LISTtags", cText "[\"x\", \"y\"]")]] })],
    log := ["ALTER TABLE User ADD COLUMN name TEXT", "ALTER TABLE User ADD COLUMN LISTtags TEXT",
            "INSERT OR REPLACE INTO User (id,name,LISTtags) VALUES (?,?,?)"] }

/-- `Box` with fields `id: int`, `items: list[str]`, used for the empty-list
encoding claim. -/
def BoxDef : ModelDef :=
  { name := "Box", annotations := [("id", pyInt), ("items", pyListOf pyStr)] }

/-- The connection after migrating `Box` on a fresh database. -/
def boxConnM : Conn :=
  { cur := [("Box", { cols := [("id", "INTEGER"), ("LISTitems", "TEXT")], rows := [] })],
    committed := [("Box", { cols := [("id", "INTEGER"), ("LISTitems", "TEXT")], rows := [] })],
    log := ["ALTER TABLE Box ADD COLUMN LISTitems TEXT"] }

/-- The connection after then upserting `Box(items=[])`. -/
def boxConnU : Conn :=
  { cur := [("Box", { cols := [("id", "INTEGER"), ("LISTitems", "TEXT")],
                      rows := [[("id", cInt 1), ("LISTitems", cText "[]")]] })],
    committed := [("Box", { cols := [("id", "INTEGER"), ("LISTitems", "TEXT")],
                            rows := [[("id", cInt 1), ("LISTitems", cText "[]")]] })],
    log := ["ALTER TABLE Box ADD COLUMN LISTitems TEXT",
            "INSERT OR REPLACE INTO Box (id,LISTitems) VALUES (?,?)"] }

/-- `Nest` with fields `id: int`, `xs: list[list[int]]`: a parameterized list type
outside `auto_migrate`'s enumerated list. -/
def NestDef : ModelDef :=
  { name := "Nest", annotations := [("id", pyInt), ("xs", pyListOf (pyListOf pyInt))] }

/-- The connection after migrating `Nest`: the column is named `JSONxs`. -/
def nestConnM : Conn :=
  { cur := [("Nest", { cols := [("id", "INTEGER"), ("JSONxs", "TEXT")], rows := [] })],
    committed := [("Nest", { cols := [("id", "INTEGER"), ("JSONxs", "TEXT")], rows := [] })],
    log := ["ALTER TABLE Nest ADD COLUMN JSONxs TEXT"] }

/-- The connection state at the error raised when upserting a `Nest` value:
the INSERT was logged but targeted the nonexistent `LISTxs` column. -/
def nestConnErr : Conn :=
  { nestConnM with
    log := nestConnM.log ++ ["INSERT OR REPLACE INTO Nest (id,LISTxs) VALUES (?,?)"] }

/-- Child model `C` with fields `id: int`, `name: str` of the reference-resolution
scenario. -/
def CDef : ModelDef :=
  { name := "C", annotations := [("id", pyInt), ("name", pyStr)] }

/-- Parent model `P` with fields `id: int`, `title: str`, `child: C`. -/
def PDef : ModelDef :=
  { name := "P", annotations := [("id", pyInt), ("title", pyStr), ("child", pyModel "C")] }

/-- The connection after migrating `C` and `P` on a fresh database. -/
def pcConnM : Conn :=
  { cur := [("C", { cols := [("id", "INTEGER"), ("name", "TEXT")], rows := [] }),
            ("P", { cols := [("id", "INTEGER"), ("title", "TEXT"), ("FOREIGNIDchild", "TEXT")],
                    rows := [] })],
    committed := [("C", { cols := [("id", "INTEGER"), ("name", "TEXT")], rows := [] }),
                  ("P", { cols := [("id", "INTEGER"), ("title", "TEXT"), ("FOREIGNIDchild", "TEXT")],
                          rows := [] })],
    log := ["ALTER TABLE C ADD COLUMN name TEXT", "ALTER TABLE P ADD COLUMN title TEXT",
            "ALTER TABLE P ADD COLUMN FOREIGNIDchild TEXT"] }

/-- `P(title=t, child=C(name=s))`, ids left at their `None` defaults. -/
def pInst (s t : String) : Val :=
  vModel "P" [("id", vNone), ("title", vStr t),
              ("child", vModel "C" [("id", vNone), ("name", vStr s)])]

/-- The connection after upserting `pInst s t` into `pcConnM`: the child row
exists in `C`, the parent row holds the `$ID:C:1` token, and the logged
insert into `C` precedes the one into `P`. -/
def pcConnU (s t : String) : Conn :=
  { cur := [("C", { cols := [("id", "INTEGER"), ("name", "TEXT")],
                    rows := [[("id", cInt 1), ("name", cText s)]] }),
            ("P", { cols := [("id", "INTEGER"), ("title", "TEXT"), ("FOREIGNIDchild", "TEXT")],
                    rows := [[("id", cInt 1), ("title", cText t),
                              ("FOREIGNIDchild", cText "$ID:C:1")]] })],
    committed := [("C", { cols := [("id", "INTEGER"), ("name", "TEXT")],
                          rows := [[("id", cInt 1), ("name", cText s)]] }),
                  ("P", { cols := [("id", "INTEGER"), ("title", "TEXT"), ("FOREIGNIDchild", "TEXT")],
                          rows := [[("id", cInt 1), ("title", cText t),
                                    ("FOREIGNIDchild", cText "$ID:C:1")]] })],
    log := ["ALTER TABLE C ADD COLUMN name TEXT", "ALTER TABLE P ADD COLUMN title TEXT",
            "ALTER TABLE P ADD COLUMN FOREIGNIDchild TEXT",
            "INSERT OR REPLACE INTO C (id,name) VALUES (?,?)",
            "INSERT OR REPLACE INTO P (id,title,FOREIGNIDchild) VALUES (?,?,?)"] }

/-- Models for the atomicity scenarios: two children, only the first
migrated. -/
def CaDef : ModelDef := { name := "Ca", annotations := [("id", pyInt), ("x", pyInt)] }

def CbDef : ModelDef := { name := "Cb", annotations := [("id", pyInt), ("y", pyInt)] }

def P2Def : ModelDef :=
  { name := "P2", annotations := [("id", pyInt), ("ca", pyModel "Ca"), ("cb", pyModel "Cb")] }

/-- Connection after migrating `Ca` and `P2` — but never `Cb`. -/
def p9ConnM : Conn :=
  { cur := [("Ca", { cols := [("id", "INTEGER"), ("x", "INTEGER")], rows := [] }),
            ("P2", { cols := [("id", "INTEGER"), ("FOREIGNIDca", "TEXT"), ("FOREIGNIDcb", "TEXT")],
                     rows := [] })],
    committed := [("Ca", { cols := [("id", "INTEGER"), ("x", "INTEGER")], rows := [] }),
                  ("P2", { cols := [("id", "INTEGER"), ("FOREIGNIDca", "TEXT"), ("FOREIGNIDcb", "TEXT")],
                           rows := [] })],
    log := ["ALTER TABLE Ca ADD COLUMN x INTEGER", "ALTER TABLE P2 ADD COLUMN FOREIGNIDca TEXT",
            "ALTER TABLE P2 ADD COLUMN FOREIGNIDcb TEXT"] }

/-- `P2(ca=Ca(x=5), cb=Cb(y=6))`. -/
def p2Inst : Val :=
  vModel "P2" [("id", vNone), ("ca", vModel "Ca" [("id", vNone), ("x", vInt 5)]),
               ("cb", vModel "Cb" [("id", vNone), ("y", vInt 6)])]

/-- The connection state at the error of upserting `p2Inst`: the cascaded
`Ca` row was already written and committed by the nested upsert before the
missing `Cb` table aborted the call. -/
def p9ConnErr : Conn :=
  { cur := [("Ca", { cols := [("id", "INTEGER"), ("x", "INTEGER")],
                     rows := [[("id", cInt 1), ("x", cInt 5)]] }),
            ("P2", { cols := [("id", "INTEGER"), ("FOREIGNIDca", "TEXT"), ("FOREIGNIDcb", "TEXT")],
                     rows := [] })],
    committed := [("Ca", { cols := [("id", "INTEGER"), ("x", "INTEGER")],
                           rows := [[("id", cInt 1), ("x", cInt 5)]] }),
                  ("P2", { cols := [("id", "INTEGER"), ("FOREIGNIDca", "TEXT"), ("FOREIGNIDcb", "TEXT")],
                           rows := [] })],
    log := ["ALTER TABLE Ca ADD COLUMN x INTEGER", "ALTER TABLE P2 ADD COLUMN FOREIGNIDca TEXT",
            "ALTER TABLE P2 ADD COLUMN FOREIGNIDcb TEXT",
            "INSERT OR REPLACE INTO Ca (id,x) VALUES (?,?)"] }

/-- A one-row table before a migration that adds a column. -/
def tPre : Table := { cols := [("id", "INTEGER")], rows := [[("id", cInt 1)]] }

/-- `tPre` after `auto_migrate` adds the TEXT column `name`: the old cell is
kept, the new cell is backfilled with the TEXT default `""`. -/
def tPost : Table :=
  { cols := [("id", "INTEGER"), ("name", "TEXT")],
    rows := [[("id", cInt 1), ("name", cText "")]] }

/-! ## Helper lemmas -/

theorem alookup_append_left {α : Type} (x : String) (l l2 : List (String × α))
    (h : x ∈ l.map Prod.fst) : alookup x (l ++ l2) = alookup x l := by
  induction l with
  | nil => simp at h
  | cons kv rest ih =>
    simp only [List.cons_append, alookup]
    split
    · rfl
    · next hne =>
      apply ih
      simp only [List.map_cons, List.mem_cons] at h
      cases h with
      | inl hx => exact absurd hx.symm hne
      | inr hx => exact hx

theorem alookup_append_right {α : Type} (x : String) (l l2 : List (String × α))
    (h : x ∉ l.map Prod.fst) : alookup x (l ++ l2) = alookup x l2 := by
  induction l with
  | nil => rfl
  | cons kv rest ih =>
    simp only [List.map_cons, List.mem_cons, not_or] at h
    simp only [List.cons_append, alookup]
    rw [if_neg (fun hx => h.1 hx.symm)]
    exact ih h.2

theorem eraseKey_fst {α : Type} (f : String) :
    ∀ (l : List (String × α)) (ks rest : List String),
      l.map Prod.fst = ks ++ f :: rest → f ∉ ks →
      (eraseKey f l).map Prod.fst = ks ++ rest := by
  intro l
  induction l with
  | nil =>
    intro ks rest h _
    simp at h
  | cons kv rest' ih =>
    intro ks rest h hks
    cases ks with
    | nil =>
      simp only [List.nil_append, List.map_cons, List.cons.injEq] at h
      simp only [eraseKey, h.1, if_pos rfl, List.nil_append]
      exact h.2
    | cons k0 ks' =>
      simp only [List.cons_append, List.map_cons, List.cons.injEq] at h
      simp only [List.mem_cons, not_or] at hks
      have hne : k0 ≠ f := fun hx => hks.1 hx.symm
      simp only [eraseKey, h.1, if_neg hne, List.map_cons, List.cons_append]
      rw [ih ks' rest h.2 hks.2]

theorem addColumnWithBackfill_cols (t : Table) (c ty : String) (t' : Table)
    (h : addColumnWithBackfill t c ty = .ok t') :
    colNames t' = colNames t ++ [c] := by
  unfold addColumnWithBackfill addColumn at h
  split at h
  · exact Except.noConfusion h
  · next t1 heq =>
    split at heq
    · exact Except.noConfusion heq
    · cases heq
      cases h
      simp [fillNulls, colNames]

/-- Run-one characterization of the add loop: the resulting columns are the
old ones followed by the added names; every added name is an expected
name absent from the snapshot, and every expected name absent from the
snapshot was added. -/
theorem addLoop_cols (tname : String) (tf : List String) :
    ∀ (mcols : List (String × String)) (t : Table) (log : List String)
      (t' : Table) (log' : List String),
      addLoop tname tf t log mcols = .ok (t', log') →
      ∃ added : List String,
        colNames t' = colNames t ++ added ∧
        (∀ x ∈ added, x ∈ mcols.map Prod.fst ∧ x ∉ tf) ∧
        (∀ p ∈ mcols, p.1 ∉ tf → p.1 ∈ added) := by
  intro mcols
  induction mcols with
  | nil =>
    intro t log t' log' h
    cases h
    exact ⟨[], by simp, by simp, by simp⟩
  | cons p rest ih =>
    intro t log t' log' h
    obtain ⟨c, ty⟩ := p
    simp only [addLoop] at h
    split at h
    · next hin =>
      obtain ⟨added, h1, h2, h3⟩ := ih t log t' log' h
      refine ⟨added, h1, ?_, ?_⟩
      · intro x hx
        obtain ⟨hx1, hx2⟩ := h2 x hx
        exact ⟨by simp only [List.map_cons]; exact List.mem_cons_of_mem _ hx1, hx2⟩
      · intro q hq hqtf
        cases hq with
        | head => exact absurd hin hqtf
        | tail _ hq' => exact h3 q hq' hqtf
    · next hnin =>
      cases hab : addColumnWithBackfill t c ty with
      | error e => rw [hab] at h; exact Except.noConfusion h
      | ok t1 =>
        rw [hab] at h
        obtain ⟨added, h1, h2, h3⟩ := ih t1 _ t' log' h
        refine ⟨c :: added, ?_, ?_, ?_⟩
        · rw [h1, addColumnWithBackfill_cols t c ty t1 hab]
          simp
        · intro x hx
          cases hx with
          | head => exact ⟨by simp, hnin⟩
          | tail _ hx' =>
            obtain ⟨hx1, hx2⟩ := h2 x hx'
            exact ⟨by simp only [List.map_cons]; exact List.mem_cons_of_mem _ hx1, hx2⟩
        · intro q hq hqtf
          cases hq with
          | head => exact List.mem_cons_self _ _
          | tail _ hq' => exact List.mem_cons_of_mem _ (h3 q hq' hqtf)

/-- The add loop is a silent no-op once every expected name is already in
the snapshot. -/
theorem addLoop_skip (tname : String) (tf : List String) :
    ∀ (mcols : List (String × String)) (t : Table) (log : List String),
      (∀ p ∈ mcols, p.1 ∈ tf) →
      addLoop tname tf t log mcols = .ok (t, log) := by
  intro mcols
  induction mcols with
  | nil => intro t log _; rfl
  | cons p rest ih =>
    intro t log hall
    obtain ⟨c, ty⟩ := p
    simp only [addLoop]
    rw [if_pos (hall (c, ty) (List.mem_cons_self _ _))]
    exact ih t log (fun q hq => hall q (List.mem_cons_of_mem _ hq))

/-- The drop loop is a silent no-op once every snapshot field is expected
or is `id`. -/
theorem dropLoop_skip (tname : String) (mf : List String) :
    ∀ (tfl : List String) (t : Table) (log : List String),
      (∀ f ∈ tfl, f ∈ mf ∨ f = "id") →
      dropLoop tname mf t log tfl = .ok (t, log) := by
  intro tfl
  induction tfl with
  | nil => intro t log _; rfl
  | cons f rest ih =>
    intro t log hall
    simp only [dropLoop]
    rw [if_neg (by
      intro hcon
      cases hall f (List.mem_cons_self _ _) with
      | inl hm => exact hcon.1 hm
      | inr hid => exact hcon.2 hid)]
    exact ih t log (fun g hg => hall g (List.mem_cons_of_mem _ hg))

/-- Run-one characterization of the drop loop: processing the snapshot
suffix `tfl` of a table whose columns are `kept ++ tfl ++ extra` (with
`kept` already checked and `extra` the freshly added expected columns)
succeeds and keeps exactly the expected-or-id part of `tfl`. -/
theorem dropLoop_char (tname : String) (mf : List String) :
    ∀ (tfl : List String) (t : Table) (log kept extra : List String),
      colNames t = kept ++ (tfl ++ extra) →
      (∀ x ∈ kept, x ∈ mf ∨ x = "id") →
      (∀ x ∈ extra, x ∈ mf) →
      ∃ t' newlog,
        dropLoop tname mf t log tfl = .ok (t', log ++ newlog) ∧
        colNames t' =
          kept ++ (tfl.filter (fun f => decide (f ∈ mf ∨ f = "id")) ++ extra) := by
  intro tfl
  induction tfl with
  | nil =>
    intro t log kept extra hcols _ _
    exact ⟨t, [], by simp [dropLoop], by simpa using hcols⟩
  | cons f rest ih =>
    intro t log kept extra hcols hkept hextra
    by_cases hbad : f ∉ mf ∧ f ≠ "id"
    · have hfkept : f ∉ kept := by
        intro hfk
        cases hkept f hfk with
        | inl hm => exact hbad.1 hm
        | inr hid => exact hbad.2 hid
      have hfmem : f ∈ colNames t := by
        rw [hcols]; exact List.mem_append_right _ (List.mem_append_left _ (List.mem_cons_self _ _))
      have hdrop : dropColumn t f =
          .ok ⟨eraseKey f t.cols, t.rows.map (eraseKey f)⟩ := by
        simp [dropColumn, hfmem]
      have hcols1 : colNames ⟨eraseKey f t.cols, t.rows.map (eraseKey f)⟩ =
          kept ++ (rest ++ extra) := by
        show (eraseKey f t.cols).map Prod.fst = kept ++ (rest ++ extra)
        have := eraseKey_fst f t.cols kept (rest ++ extra) (by simpa using hcols) hfkept
        simpa using this
      obtain ⟨t', newlog, hrun, hres⟩ :=
        ih _ (log ++ ["ALTER TABLE " ++ tname ++ " DROP COLUMN " ++ f]) kept extra
          hcols1 hkept hextra
      refine ⟨t', ("ALTER TABLE " ++ tname ++ " DROP COLUMN " ++ f) :: newlog, ?_, ?_⟩
      · simp only [dropLoop]
        rw [if_pos hbad, hdrop]
        simpa using hrun
      · have hfilter :
            (f :: rest).filter (fun g => decide (g ∈ mf ∨ g = "id")) =
            rest.filter (fun g => decide (g ∈ mf ∨ g = "id")) := by
          simp only [List.filter_cons]
          rw [if_neg (by
            simp only [decide_eq_true_eq]
            intro hcon
            cases hcon with
            | inl hm => exact hbad.1 hm
            | inr hid => exact hbad.2 hid)]
        rw [hfilter]
        exact hres
    · have hgood : f ∈ mf ∨ f = "id" := by
        by_cases hm : f ∈ mf
        · exact Or.inl hm
        · right
          by_contra hid
          exact hbad ⟨hm, hid⟩
      have hcols' : colNames t = (kept ++ [f]) ++ (rest ++ extra) := by
        rw [hcols]; simp
      obtain ⟨t', newlog, hrun, hres⟩ :=
        ih t log (kept ++ [f]) extra hcols'
          (by
            intro x hx
            cases List.mem_append.mp hx with
            | inl hx' => exact hkept x hx'
            | inr hx' =>
              cases hx' with
              | head => exact hgood
              | tail _ hx'' => exact absurd hx'' (List.not_mem_nil x))
          hextra
      refine ⟨t', newlog, ?_, ?_⟩
      · simp only [dropLoop]
        rw [if_neg hbad]
        exact hrun
      · have hfilter :
            (f :: rest).filter (fun g => decide (g ∈ mf ∨ g = "id")) =
            f :: rest.filter (fun g => decide (g ∈ mf ∨ g = "id")) := by
          simp only [List.filter_cons]
          rw [if_pos (by simpa using hgood)]
        rw [hfilter, hres]
        simp

theorem alookup_none {α : Type} (x : String) :
    ∀ l : List (String × α), alookup x l = none → x ∉ l.map Prod.fst := by
  intro l
  induction l with
  | nil => intro _ h; simp at h
  | cons kv rest ih =>
    intro h hmem
    simp only [alookup] at h
    split at h
    · exact Option.noConfusion h
    · next hne =>
      simp only [List.map_cons, List.mem_cons] at hmem
      cases hmem with
      | inl hx => exact hne hx.symm
      | inr hx => exact ih h hx

theorem updateTable_self (name : String) (t : Table) :
    ∀ db : DB, lookupTable db name = some t → updateTable name t db = db := by
  intro db
  induction db with
  | nil => intro h; exact Option.noConfusion h
  | cons e rest ih =>
    intro h
    obtain ⟨n, tb⟩ := e
    simp only [lookupTable, alookup] at h
    simp only [updateTable]
    split
    · next heq =>
      rw [if_pos heq] at h
      cases h
      rw [heq]
    · next hne =>
      rw [if_neg hne] at h
      rw [ih h]

theorem lookupTable_update (name : String) (t t0 : Table) :
    ∀ db : DB, lookupTable db name = some t0 →
      lookupTable (updateTable name t db) name = some t := by
  intro db
  induction db with
  | nil => intro h; exact Option.noConfusion h
  | cons e rest ih =>
    intro h
    obtain ⟨n, tb⟩ := e
    simp only [lookupTable, alookup] at h
    simp only [updateTable]
    split
    · next heq => simp [lookupTable, alookup]
    · next hne =>
      rw [if_neg hne] at h
      simp only [lookupTable, alookup, if_neg hne]
      exact ih h

/-- Reconciling a table a second time with the same annotations is a silent
no-op: same table, no logged DDL. -/
theorem migrateTable_idem (tname : String) (anns : List (String × PyType))
    (t t2 : Table) (log12 : List String)
    (h : migrateTable tname anns t = .ok (t2, log12)) :
    migrateTable tname anns t2 = .ok (t2, []) := by
  unfold migrateTable at h
  split at h
  · exact Except.noConfusion h
  · next hanns =>
    split at h
    · exact Except.noConfusion h
    · next t1 log1 hadd =>
      split at h
      · exact Except.noConfusion h
      · next tmid log2 hdrop =>
        cases h
        obtain ⟨added, hcols1, hadded, hcover⟩ :=
          addLoop_cols tname (colNames t) _ t [] t1 log1 hadd
        obtain ⟨t2', newlog, hdrun, hdres⟩ :=
          dropLoop_char tname ((anns.map (fun fv => migCol fv.1 fv.2)).map Prod.fst)
            (colNames t) t1 [] [] added (by simpa using hcols1) (by simp)
            (fun x hx => (hadded x hx).1)
        rw [hdrop] at hdrun
        cases hdrun
        simp only [List.nil_append] at hdres
        -- second run: every expected column is present, every column expected
        have hexp : ∀ p ∈ anns.map (fun fv => migCol fv.1 fv.2),
            p.1 ∈ colNames t2 := by
          intro p hp
          rw [hdres]
          by_cases htf : p.1 ∈ colNames t
          · apply List.mem_append_left
            apply List.mem_filter.mpr
            exact ⟨htf, by
              simp only [decide_eq_true_eq]
              exact Or.inl (List.mem_map_of_mem Prod.fst hp)⟩
          · apply List.mem_append_right
            exact hcover p hp htf
        have hall : ∀ f ∈ colNames t2,
            f ∈ (anns.map (fun fv => migCol fv.1 fv.2)).map Prod.fst ∨ f = "id" := by
          intro f hf
          rw [hdres] at hf
          cases List.mem_append.mp hf with
          | inl hf' =>
            have := List.mem_filter.mp hf'
            simpa using this.2
          | inr hf' => exact Or.inl ((hadded f hf').1)
        simp only [migrateTable, if_neg hanns,
          addLoop_skip tname (colNames t2) _ t2 [] hexp,
          dropLoop_skip tname _ (colNames t2) t2 [] hall, List.append_nil]

/-- Reconciling inside a database that contains the model's table: a second
migration of the same definition is the identity, whatever the committed
snapshot is. -/
theorem migrateInDB_idem (d : ModelDef) (c c1 : Conn) (db1 : DB) (t0 : Table)
    (hdb : lookupTable db1 d.name = some t0)
    (h : migrateInDB c d db1 = .ok c1) :
    ∀ x : DB, migrateOne { c1 with committed := x } d = .ok { c1 with committed := x } := by
  intro x
  unfold migrateInDB at h
  split at h
  · exact Except.noConfusion h
  · next t heq =>
    rw [hdb] at heq
    cases heq
    split at h
    · exact Except.noConfusion h
    · next t2 log12 hmt =>
      cases h
      have hlook2 : lookupTable (updateTable d.name t2 db1) d.name = some t2 :=
        lookupTable_update d.name t2 t0 db1 hdb
      have hidem := migrateTable_idem d.name d.annotations t0 t2 log12 hmt
      unfold migrateOne migrateInDB
      simp only [hlook2, hidem, updateTable_self d.name t2 _ hlook2, List.append_nil]

/-- Migrating a definition a second time returns the connection unchanged,
whatever its committed snapshot is. -/
theorem migrateOne_idem (d : ModelDef) (c c1 : Conn)
    (h : migrateOne c d = .ok c1) :
    ∀ x : DB, migrateOne { c1 with committed := x } d = .ok { c1 with committed := x } := by
  unfold migrateOne at h
  cases hl : lookupTable c.cur d.name with
  | some t0 =>
    rw [hl] at h
    exact migrateInDB_idem d c c1 c.cur t0 hl h
  | none =>
    rw [hl] at h
    have hfresh : lookupTable
        (c.cur ++ [(d.name, { cols := [createIdCol d], rows := [] })]) d.name =
        some { cols := [createIdCol d], rows := [] } := by
      show alookup d.name _ = _
      rw [alookup_append_right d.name c.cur _ (alookup_none d.name c.cur hl)]
      simp [alookup]
    exact migrateInDB_idem d c c1 _ _ hfresh h

/-! ## Claim theorems -/

/-- C1: the spec's round-trip / end-to-end example. Migrating `User`,
upserting `User(name="a", tags=["x","y"])` returns identity 1 as claimed,
but `first(User, "id = ?", 1)` reconstructs `tags` as the empty list: the
loader's list branch (data.py lines 363-369) has no `else` and silently
drops scalar elements, so the read path is not the inverse of the write path
and the claimed equality fails on the `tags` field. -/
theorem c1_user_roundtrip_eval :
    auto_migrate emptyConn [UserDef] = .ok () userConnM ∧
    upsert 20 userConnM [userAlice] = .ok [1] userConnU ∧
    storedCell userConnU.cur "User" "LISTtags" = some (cText "[\"x\", \"y\"]") ∧
    first 20 [UserDef] userConnU "User" (.idEq (cInt 1)) vNone =
      .ok (vModel "User" [("id", vInt 1), ("name", vStr "a"), ("tags", vList [])]) :=
  ⟨rfl, rfl, rfl, rfl⟩

/-- C2 counterexample: upserting a record with an empty list field stores
the JSON text `"[]"` in its LIST column, not the empty string `""` the claim
asserts. -/
theorem c2_counterexample :
    upsert 20 boxConnM [vModel "Box" [("id", vNone), ("items", vList [])]] = .ok [1] boxConnU ∧
    storedCell boxConnU.cur "Box" "LISTitems" = some (cText "[]") ∧
    cText "[]" ≠ cText "" := by
  refine ⟨rfl, rfl, ?_⟩
  decide

/-- C2 amended: `_flat` encodes an empty list as `"[]"` (leaving the
connection untouched); the loader treats both a stored `""` (the migration
backfill default) and `"[]"` as an empty list; and reading the upserted
record yields an empty sequence, not `None`. -/
theorem c2_empty_list_encoding (c : Conn) :
    flatData 2 c (vList []) = .ok "[]" c ∧
    load 5 [] (vDict [("LISTitems", vStr "")]) = .ok (vDict [("items", vList [])]) ∧
    load 5 [] (vDict [("LISTitems", vStr "[]")]) = .ok (vDict [("items", vList [])]) ∧
    first 20 [BoxDef] boxConnU "Box" (.idEq (cInt 1)) vNone =
      .ok (vModel "Box" [("id", vInt 1), ("items", vList [])]) :=
  ⟨rfl, rfl, rfl, rfl⟩

/-- C3 counterexample: for the declared type `list[list[int]]` (a
parameterized list type outside the enumerated list), `auto_migrate` derives
the column name `JSONxs`, not `LISTxs`; `upsert` keys the runtime list value
as `LISTxs`, so the post-migration write targets a missing column and
fails. -/
theorem c3_counterexample :
    migCol "xs" (pyListOf (pyListOf pyInt)) = ("JSONxs", "TEXT") ∧
    ("JSONxs" : String) ≠ "LISTxs" ∧
    auto_migrate emptyConn [NestDef] = .ok () nestConnM ∧
    upsert 20 nestConnM [vModel "Nest" [("id", vNone), ("xs", vList [vList [vInt 1]])]] =
      .err "table has no column named LISTxs" nestConnErr := by
  refine ⟨rfl, ?_, rfl, rfl⟩
  decide

/-- C3 amended: for exactly the enumerated collection annotations — bare
`list`/`dict`, `list[str|int|float|bool]`, `dict[str, str|int|float|bool]` —
`auto_migrate` derives the LIST/DICT-prefixed column name, and that name
coincides with the key `upsert` uses for a runtime list/dict value, so those
writes target an existing column; other parameterized collections fall to
the JSON prefix at migration (see the counterexample). -/
theorem c3_prefix_agreement (f : String) (c : Conn) (n : Int) :
    migCol f pyList = ("LIST" ++ f, "TEXT") ∧
    migCol f (pyListOf pyStr) = ("LIST" ++ f, "TEXT") ∧
    migCol f (pyListOf pyInt) = ("LIST" ++ f, "TEXT") ∧
    migCol f (pyListOf pyFloat) = ("LIST" ++ f, "TEXT") ∧
    migCol f (pyListOf pyBool) = ("LIST" ++ f, "TEXT") ∧
    migCol f pyDict = ("DICT" ++ f, "TEXT") ∧
    migCol f (pyDictOf pyStr pyStr) = ("DICT" ++ f, "TEXT") ∧
    migCol f (pyDictOf pyStr pyInt) = ("DICT" ++ f, "TEXT") ∧
    migCol f (pyDictOf pyStr pyFloat) = ("DICT" ++ f, "TEXT") ∧
    migCol f (pyDictOf pyStr pyBool) = ("DICT" ++ f, "TEXT") ∧
    flatFields 4 c [(f, vList [vInt n])] =
      .ok [("LIST" ++ f, cText ("[" ++ toString n ++ "]"))] c ∧
    flatFields 4 c [(f, vDict [])] = .ok [("DICT" ++ f, cText "\x7b\x7d")] c :=
  ⟨rfl, rfl, rfl, rfl, rfl, rfl, rfl, rfl, rfl, rfl, rfl, rfl⟩

/-- C5: against a never-migrated record type, `first` and `all` return the
caller-supplied default and `delete` returns with the connection unchanged;
none raises. -/
theorem c5_missing_table_defaults (fuel : Nat) (defs : List ModelDef) (c : Conn)
    (cls : String) (cond : Cond) (default : Val)
    (h : lookupTable c.cur cls = none) :
    first fuel defs c cls cond default = .ok default ∧
    allRecords fuel defs c cls cond default = .ok default ∧
    deleteRecords c cls cond = c := by
  refine ⟨?_, ?_, ?_⟩ <;> simp [first, allRecords, deleteRecords, h]

/-- C5 witness: the missing-table semantics evaluated on a fresh
connection. -/
theorem c5_witness :
    first 5 [] emptyConn "User" .always vNone = .ok vNone ∧
    allRecords 5 [] emptyConn "User" .always vNone = .ok vNone ∧
    deleteRecords emptyConn "User" .always = emptyConn :=
  c5_missing_table_defaults 5 [] emptyConn "User" .always vNone rfl

/-- C6 counterexample: an upsert call in which some record's table (`Cb`) is
missing does raise, but the committed state is not unchanged — the cascaded
nested upsert of `Ca` had already committed its own transaction before the
failure. -/
theorem c6_counterexample :
    lookupTable p9ConnM.cur "Cb" = none ∧
    upsert 20 p9ConnM [p2Inst] = .err "表Cb不存在，请先迁移" p9ConnErr ∧
    p9ConnErr.committed ≠ p9ConnM.committed := by
  refine ⟨rfl, rfl, ?_⟩
  decide

/-- C6 amended: when the upserted record's own table is missing, the check
precedes every write, so the call raises and the connection — current state,
committed state and statement log — is exactly unchanged; committed state is
only guaranteed unchanged when no nested-record write was cascaded before
the failure. -/
theorem c6_missing_table_aborts_clean (fuel : Nat) (c : Conn) (cls : String)
    (fields : List (String × Val)) (h : lookupTable c.cur cls = none) :
    upsert (fuel + 2) c [vModel cls fields] =
      .err ("表" ++ cls ++ "不存在，请先迁移") c := by
  simp [upsert, upsertLoop, upsertModel, h]

/-- C6 witness: upserting into a table absent from a fresh connection. -/
theorem c6_witness :
    upsert 7 emptyConn [vModel "User" [("id", vNone)]] =
      .err ("表" ++ "User" ++ "不存在，请先迁移") emptyConn :=
  c6_missing_table_aborts_clean 5 emptyConn "User" [("id", vNone)] rfl

/-- C7: upserting `P(title=t, child=C(name=s))` writes the child into `C`
before the parent row (see the logged statement order), assigns the child
identity 1, stores the token `$ID:C:1` under `FOREIGNIDchild` in `P`'s row,
and `first(P, "id = ?", 1)` returns a `P` whose nested field equals the
record `first(C, "id = ?", 1)` freshly loads. -/
theorem c7_reference_resolution (s t : String) :
    upsert 20 pcConnM [pInst s t] = .ok [1] (pcConnU s t) ∧
    storedCell (pcConnU s t).cur "P" "FOREIGNIDchild" = some (cText "$ID:C:1") ∧
    (pcConnU s t).log =
      pcConnM.log ++ ["INSERT OR REPLACE INTO C (id,name) VALUES (?,?)",
                      "INSERT OR REPLACE INTO P (id,title,FOREIGNIDchild) VALUES (?,?,?)"] ∧
    first 20 [CDef, PDef] (pcConnU s t) "P" (.idEq (cInt 1)) vNone =
      .ok (vModel "P" [("id", vInt 1), ("title", vStr t),
            ("child", vModel "C" [("id", vInt 1), ("name", vStr s)])]) ∧
    first 20 [CDef, PDef] (pcConnU s t) "C" (.idEq (cInt 1)) vNone =
      .ok (vModel "C" [("id", vInt 1), ("name", vStr s)]) :=
  ⟨rfl, rfl, rfl, rfl, rfl⟩

/-- C9: a cascading upsert that fails partway (missing `Cb` table) leaves
the nested `Ca` record it already wrote committed in the store: the cascade
is not atomic. -/
theorem c9_cascade_not_atomic :
    upsert 20 p9ConnM [p2Inst] = .err "表Cb不存在，请先迁移" p9ConnErr ∧
    lookupTable p9ConnErr.committed "Ca" =
      some { cols := [("id", "INTEGER"), ("x", "INTEGER")],
             rows := [[("id", cInt 1), ("x", cInt 5)]] } ∧
    lookupTable p9ConnM.committed "Ca" =
      some { cols := [("id", "INTEGER"), ("x", "INTEGER")], rows := [] } :=
  ⟨rfl, rfl, rfl⟩

/-- Helper: materializing a nonempty row list yields a nonempty record
list. -/
theorem allRowsLoop_cons (fuel : Nat) (defs : List ModelDef) (db : DB) (cls : String)
    (r : Row) (rest : List Row) (ms : List Val)
    (h : allRowsLoop fuel defs db cls (r :: rest) = .ok ms) :
    ∃ x xs, ms = x :: xs := by
  unfold allRowsLoop at h
  repeat' split at h
  all_goals first
    | exact Except.noConfusion h
    | (cases h; exact ⟨_, _, rfl⟩)

/-- C10: `all` never returns an empty list: when the table is missing or the
condition matches no rows it returns the caller-supplied default, and
otherwise it returns a nonempty list of records. -/
theorem c10_all_never_empty (fuel : Nat) (defs : List ModelDef) (c : Conn)
    (cls : String) (cond : Cond) (default : Val) (v : Val)
    (h : allRecords fuel defs c cls cond default = .ok v) :
    v = default ∨ ∃ x xs, v = vList (x :: xs) := by
  unfold allRecords at h
  split at h
  next => cases h; left; rfl
  next tb _ =>
    split at h
    next => cases h; left; rfl
    next r rest _ =>
      split at h
      next => exact Except.noConfusion h
      next ms hr =>
        cases h
        right
        obtain ⟨x, xs, hx⟩ := allRowsLoop_cons fuel defs c.cur cls r rest ms hr
        exact ⟨x, xs, by rw [hx]⟩

/-- C10 witness: `all` applied where it returns the default. -/
theorem c10_witness :
    (vNone : Val) = vNone ∨ ∃ x xs, (vNone : Val) = vList (x :: xs) :=
  c10_all_never_empty 5 [] emptyConn "User" .always vNone vNone rfl

/-- C4: migrating a single record definition twice in succession returns
the identical connection on the second call — same column set, same rows,
and an unchanged statement log, i.e. zero ALTER TABLE ADD/DROP COLUMN. -/
theorem c4_migrate_idempotent (d : ModelDef) (c c1 : Conn)
    (h : auto_migrate c [d] = .ok () c1) :
    auto_migrate c1 [d] = .ok () c1 := by
  unfold auto_migrate at h
  cases hm : migrateOne c d with
  | error e =>
    rw [hm] at h
    exact MRes.noConfusion h
  | ok c' =>
    rw [hm] at h
    unfold auto_migrate at h
    cases h
    have hidem := migrateOne_idem d c c' hm c'.cur
    show auto_migrate (commitConn c') [d] = .ok () (commitConn c')
    unfold auto_migrate
    simp only [commitConn]
    rw [hidem]
    rfl

/-- C4 witness: migrating `User` a second time on the already-migrated
connection is the identity. -/
theorem c4_witness : auto_migrate userConnM [UserDef] = .ok () userConnM :=
  c4_migrate_idempotent UserDef emptyConn userConnM rfl

/-- Mapping the NULL-backfill over cells of other columns is the
identity. -/
theorem setNullCell_skip (c : String) (d : Cell) (r : Row)
    (h : ∀ kv ∈ r, kv.1 ≠ c) : r.map (setNullCell c d) = r := by
  induction r with
  | nil => rfl
  | cons kv rest ih =>
    simp only [List.map_cons]
    rw [ih (fun kv' hkv' => h kv' (List.mem_cons_of_mem _ hkv'))]
    have hne : kv.1 ≠ c := h kv (List.mem_cons_self _ _)
    simp [setNullCell, hne]

/-- C8: the add-with-backfill step `auto_migrate` runs for an absent column
(data.py lines 160-163) appends exactly the new column; the row count is
unchanged; every pre-existing row keeps its value in every prior column;
and the new column holds the storage type's zero-value default (empty
string / 0 / 0.0) in every pre-existing row. -/
theorem c8_add_column_backfill (t : Table) (c ty : String) (t' : Table)
    (hwf : ∀ r ∈ t.rows, r.map Prod.fst = colNames t)
    (hc : c ∉ colNames t)
    (h : addColumnWithBackfill t c ty = .ok t') :
    colNames t' = colNames t ++ [c] ∧
    t'.rows.length = t.rows.length ∧
    ∀ i r, t.rows.get? i = some r →
      ∃ r', t'.rows.get? i = some r' ∧
        (∀ x, x ∈ colNames t → alookup x r' = alookup x r) ∧
        alookup c r' = some (DEFAULT_VALUE ty) := by
  unfold addColumnWithBackfill addColumn at h
  rw [if_neg hc] at h
  cases h
  refine ⟨by simp [fillNulls, colNames], by simp [fillNulls], ?_⟩
  intro i r hi
  have hr : r ∈ t.rows := List.get?_mem hi
  have hkeys : r.map Prod.fst = colNames t := hwf r hr
  have hcr : c ∉ r.map Prod.fst := by rw [hkeys]; exact hc
  have hstep : (r ++ [(c, cNull)]).map (setNullCell c (DEFAULT_VALUE ty)) =
      r ++ [(c, DEFAULT_VALUE ty)] := by
    rw [List.map_append]
    have h1 : r.map (setNullCell c (DEFAULT_VALUE ty)) = r :=
      setNullCell_skip c _ r (fun kv hkv hx =>
        hcr (hx ▸ List.mem_map_of_mem Prod.fst hkv))
    have h2 : ([(c, cNull)] : Row).map (setNullCell c (DEFAULT_VALUE ty)) =
        [(c, DEFAULT_VALUE ty)] := by
      simp [setNullCell]
    rw [h1, h2]
  refine ⟨r ++ [(c, DEFAULT_VALUE ty)], ?_, ?_, ?_⟩
  · show (List.map _ (List.map _ t.rows)).get? i = _
    rw [List.map_map, List.get?_map, hi]
    simp only [Option.map_some', Function.comp_apply]
    rw [hstep]
  · intro x hx
    exact alookup_append_left x r _ (by rw [hkeys]; exact hx)
  · rw [alookup_append_right c r _ hcr]
    simp [alookup]

/-- C8 witness: adding the TEXT column `name` to a one-row table keeps the
row's id cell and backfills the new cell with `""`. -/
theorem c8_witness :
    colNames tPost = colNames tPre ++ ["name"] ∧
    tPost.rows.length = tPre.rows.length ∧
    (∀ i r, tPre.rows.get? i = some r →
      ∃ r', tPost.rows.get? i = some r' ∧
        (∀ x, x ∈ colNames tPre → alookup x r' = alookup x r) ∧
        alookup "name" r' = some (DEFAULT_VALUE "TEXT")) :=
  c8_add_column_backfill tPre "name" "TEXT" tPost (by decide) (by decide) rfl

end Ly
